import Mathlib

/-!
Shallow embedding of the Takuezy Housing API (src/main.py together with the
collection schemas in src/schemas.py).

Modelling conventions:
* MongoDB collections become association lists `List (Nat × Doc)` kept in
  insertion order; `create_document` appends and returns the fresh identifier
  (`ObjectId` strings become `Nat`); `find_one` is the first match in storage
  order; `update_one` patches the first match.
* Python floats carrying money become exact rationals `ℚ`; the literal `0.05`
  becomes `5 / 100`.  `round(x, 2)` becomes rounding `100 * x` to an integer.
  Python rounds IEEE doubles half-to-even, but no double is an exact
  two-decimal tie (an odd multiple of 1/200 is not dyadic), so the tie rule
  never fires in the code; ties of the rational model are rounded half-up.
* bcrypt hashing/verification and the wall clock are external effects: the
  handlers take a `Crypto` record of hash/verify functions and a `now : Nat`
  (seconds) where the code calls `datetime.now`.
* JWT signing (HS256) is modelled by a signature string computed from the
  secret and the payload.
* `get_current_user` resolves the bearer token to a stored user; handlers
  taking `current` receive the acting user as a pair `(id, doc)`.
* pydantic validation that can reject a handler-constructed document
  (`Literal` fields, `ge=0` bounds) raises an unhandled in-process error,
  surfaced as HTTP 500; it is modelled by `HErr.internal`.
-/

set_option autoImplicit false

namespace Takuezy

/-- Error taxonomy of the handlers: the HTTPException status codes raised in
src/main.py, plus `internal` for unhandled in-process faults (HTTP 500). -/
inductive HErr where
  | badRequest : String → HErr
  | unauthorized : String → HErr
  | forbidden : String → HErr
  | notFound : String → HErr
  | internal : String → HErr
  deriving DecidableEq, Repr

/-- The HTTP status code attached to each error kind. -/
def HErr.status : HErr → Nat
  | .badRequest _ => 400
  | .unauthorized _ => 401
  | .forbidden _ => 403
  | .notFound _ => 404
  | .internal _ => 500

/-- schemas.Location. -/
structure LocationDoc where
  lat : ℚ
  lng : ℚ
  address : Option String := none
  deriving DecidableEq, Repr

/-- schemas.User: one document of the "user" collection.  `role` stays a plain
string because every check in main.py is a string comparison; `updated_at` is
the extra field `$set` by the admin endpoints. -/
structure UserDoc where
  full_name : String
  role : String
  email : Option String := none
  phone : Option String := none
  national_id : String
  password_hash : String
  is_approved : Bool := false
  id_verified : Bool := false
  updated_at : Option Nat := none
  deriving DecidableEq, Repr

/-- schemas.Listing: one document of the "listing" collection. -/
structure ListingDoc where
  owner_id : Nat
  title : String
  description : Option String := none
  price : ℚ
  pricing_type : String := "monthly"
  property_type : String := "room"
  facilities : List String := []
  media_urls : List String := []
  location : LocationDoc
  is_available : Bool := true
  updated_at : Option Nat := none
  deriving DecidableEq, Repr

/-- schemas.Application: one document of the "application" collection. -/
structure ApplicationDoc where
  listing_id : Nat
  tenant_id : Nat
  message : Option String := none
  national_id : String
  status : String := "pending"
  updated_at : Option Nat := none
  deriving DecidableEq, Repr

/-- schemas.Payment: one document of the "payment" collection. -/
structure PaymentDoc where
  listing_id : Nat
  tenant_id : Nat
  owner_id : Nat
  amount : ℚ
  method : String
  platform_fee : ℚ := 0
  owner_amount : ℚ := 0
  status : String := "initiated"
  receipt_id : Option Nat := none
  deriving DecidableEq, Repr

/-- schemas.Receipt: one document of the "receipt" collection. -/
structure ReceiptDoc where
  payment_id : Nat
  total : ℚ
  owner_amount : ℚ
  platform_fee : ℚ
  payee_phone : Option String := none
  reference : String
  deriving DecidableEq, Repr

/-- The values of schemas.User.role (a pydantic Literal). -/
def validRoles : List String := ["tenant", "landlord", "lodge_owner", "admin"]

/-- The values of schemas.Listing.pricing_type. -/
def validPricingTypes : List String := ["monthly", "daily", "hourly"]

/-- The values of schemas.Listing.property_type. -/
def validPropertyTypes : List String := ["house", "room", "apartment", "lodge_room", "other"]

/-- The values of schemas.Payment.method. -/
def validMethods : List String := ["ecocash", "paynow"]

/-- The whole document store, one association list per collection, plus the
counter handing out fresh identifiers. -/
structure AppState where
  users : List (Nat × UserDoc) := []
  listings : List (Nat × ListingDoc) := []
  applications : List (Nat × ApplicationDoc) := []
  payments : List (Nat × PaymentDoc) := []
  receipts : List (Nat × ReceiptDoc) := []
  nextId : Nat := 0
  deriving DecidableEq, Repr

/-- `find_one` by `_id`: the first document whose identifier matches. -/
def findDoc {α : Type} (xs : List (Nat × α)) (id : Nat) : Option α :=
  (xs.find? (fun e => e.1 == id)).map (fun e => e.2)

/-- `update_one` by `_id`: patch the first matching document. -/
def updateFirst {α : Type} (xs : List (Nat × α)) (id : Nat) (f : α → α) :
    List (Nat × α) :=
  match xs with
  | [] => []
  | e :: rest => if e.1 == id then (e.1, f e.2) :: rest else e :: updateFirst rest id f

/-- passlib's bcrypt context, kept abstract: a hash function and a verifier. -/
structure Crypto where
  hash : String → String
  verify : String → String → Bool

/-- The claims carried by a token: subject (user id) and expiry (seconds). -/
structure TokenPayload where
  sub : Nat
  exp : Nat
  deriving DecidableEq, Repr

/-- A JWT: payload plus HS256 signature. -/
structure SignedToken where
  payload : TokenPayload
  sig : String
  deriving DecidableEq, Repr

/-- jwt.encode with HS256: the signature is a deterministic function of the
shared secret and the payload (the MAC itself is external). -/
def mkSig (secret : String) (p : TokenPayload) : String :=
  secret ++ "." ++ toString p.sub ++ "." ++ toString p.exp

/-- create_token (src/main.py:72-76): copy the data, add an expiry of
`expires_minutes` (default 60 * 24) from now, sign with the secret. -/
def create_token (secret : String) (now : Nat) (sub : Nat)
    (expires_minutes : Nat := 60 * 24) : SignedToken :=
  let p : TokenPayload := { sub := sub, exp := now + expires_minutes * 60 }
  { payload := p, sig := mkSig secret p }

/-- Python truthiness of an optional string: None and "" are falsy. -/
def pyTruthy : Option String → Bool
  | none => false
  | some s => !(s == "")

/-- Request body of POST /auth/register. -/
structure RegisterRequest where
  full_name : String
  role : String
  email : Option String := none
  phone : Option String := none
  national_id : String
  password : String
  deriving DecidableEq, Repr

/-- The `$or` duplicate filter built by register (src/main.py:136-142).  When
email (resp. phone) is falsy, the branch `{"email": body.email} if body.email
else \x7b\x7d` degenerates to the empty filter, which matches every document. -/
def registerMatches (body : RegisterRequest) (u : UserDoc) : Bool :=
  (match body.email with
    | some e => if e == "" then true else u.email == some e
    | none => true)
  || (match body.phone with
    | some p => if p == "" then true else u.phone == some p
    | none => true)
  || u.national_id == body.national_id

/-- register (src/main.py:132-157). -/
def register (c : Crypto) (secret : String) (now : Nat) (body : RegisterRequest)
    (s : AppState) : Except HErr (SignedToken × AppState) :=
  if !(pyTruthy body.email) && !(pyTruthy body.phone) then
    .error (.badRequest "Email or phone required")
  else if s.users.any (fun e => registerMatches body e.2) then
    .error (.badRequest "User already exists")
  else if !(validRoles.contains body.role) then
    .error (.internal "User role validation")
  else
    let doc : UserDoc := {
      full_name := body.full_name, role := body.role, email := body.email,
      phone := body.phone, national_id := body.national_id,
      password_hash := c.hash body.password }
    let uid := s.nextId
    .ok (create_token secret now uid,
      { s with users := s.users ++ [(uid, doc)], nextId := uid + 1 })

/-- The `$or` identifier filter of login (src/main.py:163-169). -/
def loginMatches (identifier : String) (u : UserDoc) : Bool :=
  u.email == some identifier || u.phone == some identifier
    || u.national_id == identifier

/-- login (src/main.py:159-173). -/
def login (c : Crypto) (secret : String) (now : Nat) (identifier password : String)
    (s : AppState) : Except HErr SignedToken :=
  match s.users.find? (fun e => loginMatches identifier e.2) with
  | none => .error (.unauthorized "Invalid credentials")
  | some e =>
    if c.verify password e.2.password_hash then .ok (create_token secret now e.1)
    else .error (.unauthorized "Invalid credentials")

/-- Request body of POST /listings (ListingCreate, src/main.py:44-53): it has
no owner_id field. -/
structure ListingCreate where
  title : String
  description : Option String := none
  price : ℚ
  pricing_type : String
  property_type : String
  facilities : List String := []
  media_urls : List String := []
  location : LocationDoc
  is_available : Bool := true
  deriving DecidableEq, Repr

/-- create_listing (src/main.py:176-193): owner_id is taken from the
authenticated caller; schemas.Listing validation may still reject the body. -/
def create_listing (actor : Nat × UserDoc) (body : ListingCreate)
    (s : AppState) : Except HErr (Nat × AppState) :=
  if !(["landlord", "lodge_owner", "admin"].contains actor.2.role) then
    .error (.forbidden "Only owners can create listings")
  else if !(decide (0 ≤ body.price) && validPricingTypes.contains body.pricing_type
      && validPropertyTypes.contains body.property_type) then
    .error (.internal "Listing validation")
  else
    let doc : ListingDoc := {
      owner_id := actor.1, title := body.title, description := body.description,
      price := body.price, pricing_type := body.pricing_type,
      property_type := body.property_type, facilities := body.facilities,
      media_urls := body.media_urls, location := body.location,
      is_available := body.is_available }
    let id := s.nextId
    .ok (id, { s with listings := s.listings ++ [(id, doc)], nextId := id + 1 })

/-- Query parameters of GET /listings (src/main.py:196-201). -/
structure SearchParams where
  q : Option String := none
  property_type : Option String := none
  min_price : Option ℚ := none
  max_price : Option ℚ := none
  is_available : Option Bool := some true
  deriving DecidableEq, Repr

/-- Containment of one character list in another. -/
def infixOf (needle : List Char) : List Char → Bool
  | [] => needle.isEmpty
  | c :: t => needle.isPrefixOf (c :: t) || infixOf needle t

/-- Case-insensitive containment: models `$regex` with option "i" for literal
patterns (regex metacharacters are out of scope). -/
def ciContains (hay pat : String) : Bool :=
  infixOf pat.toLower.toList hay.toLower.toList

/-- The conjunctive Mongo filter built by search_listings (src/main.py:203-220):
`if property_type:` and `if q:` use Python truthiness, the price bounds use
`is not None` and translate to inclusive `$gte`/`$lte`. -/
def matchesSearch (p : SearchParams) (l : ListingDoc) : Bool :=
  (if pyTruthy p.property_type then l.property_type == p.property_type.getD ""
   else true)
  && (match p.is_available with
      | some b => l.is_available == b
      | none => true)
  && (match p.min_price with
      | some m => decide (m ≤ l.price)
      | none => true)
  && (match p.max_price with
      | some m => decide (l.price ≤ m)
      | none => true)
  && (if pyTruthy p.q then
        let q := p.q.getD ""
        ciContains l.title q
          || (match l.description with
              | some d => ciContains d q
              | none => false)
          || l.facilities.any (fun f => ciContains f q)
      else true)

/-- search_listings (src/main.py:195-224): filter in storage order, capped at
100 items. -/
def search_listings (p : SearchParams) (s : AppState) : List (Nat × ListingDoc) :=
  (s.listings.filter (fun e => matchesSearch p e.2)).take 100

/-- update_availability (src/main.py:226-234): 404 before the ownership
check. -/
def update_availability (actor : Nat × UserDoc) (listing_id : Nat)
    (is_available : Bool) (now : Nat) (s : AppState) :
    Except HErr (Bool × AppState) :=
  match findDoc s.listings listing_id with
  | none => .error (.notFound "Listing not found")
  | some l =>
    if !(l.owner_id == actor.1) && !(actor.2.role == "admin") then
      .error (.forbidden "Not allowed")
    else
      let listings := updateFirst s.listings listing_id
        (fun d => { d with is_available := is_available, updated_at := some now })
      .ok (true, { s with listings := listings })

/-- Request body of POST /applications. -/
structure ApplicationCreate where
  listing_id : Nat
  message : Option String := none
  national_id : String
  deriving DecidableEq, Repr

/-- apply (src/main.py:237-251).  The role check precedes the listing
lookup. -/
def apply (actor : Nat × UserDoc) (body : ApplicationCreate)
    (s : AppState) : Except HErr (Nat × AppState) :=
  if !(["tenant", "admin"].contains actor.2.role) then
    .error (.forbidden "Only tenants can apply")
  else
    match findDoc s.listings body.listing_id with
    | none => .error (.notFound "Listing not found")
    | some _ =>
      let doc : ApplicationDoc := {
        listing_id := body.listing_id, tenant_id := actor.1,
        message := body.message, national_id := body.national_id }
      let id := s.nextId
      .ok (id, { s with applications := s.applications ++ [(id, doc)], nextId := id + 1 })

/-- approve_application (src/main.py:253-264): 404 on missing application and
on missing owning listing, then ownership-or-admin, then overwrite status. -/
def approve_application (actor : Nat × UserDoc) (application_id : Nat)
    (approve : Bool) (now : Nat) (s : AppState) :
    Except HErr (Bool × AppState) :=
  match findDoc s.applications application_id with
  | none => .error (.notFound "Application not found")
  | some a =>
    match findDoc s.listings a.listing_id with
    | none => .error (.notFound "Listing not found")
    | some l =>
      if !(l.owner_id == actor.1) && !(actor.2.role == "admin") then
        .error (.forbidden "Not allowed")
      else
        let newStatus : String := if approve then "approved" else "rejected"
        let apps := updateFirst s.applications application_id
          (fun d => { d with status := newStatus, updated_at := some now })
        .ok (true, { s with applications := apps })

/-- Python round(x, 2) over exact rationals: round 100x to an integer, divide
back.  Ties are rounded half-up (see the module comment: the float code never
hits an exact two-decimal tie). -/
def round2 (x : ℚ) : ℚ := ((round (100 * x) : ℤ) : ℚ) / 100

/-- Request body of POST /payments/init. -/
structure PaymentInit where
  listing_id : Nat
  method : String
  deriving DecidableEq, Repr

/-- Response of POST /payments/init (src/main.py:319). -/
structure PaymentInitOut where
  payment_id : Nat
  receipt_id : Nat
  owner_amount : ℚ
  platform_fee : ℚ
  deriving DecidableEq, Repr

/-- init_payment (src/main.py:286-319): role check (before the listing
lookup), 95/5 split on the listing price, mock-successful payment, receipt
creation, then the receipt id is linked back into the payment. -/
def init_payment (platformPhone : String) (actor : Nat × UserDoc)
    (body : PaymentInit) (s : AppState) :
    Except HErr (PaymentInitOut × AppState) :=
  if !(["tenant", "admin"].contains actor.2.role) then
    .error (.forbidden "Only tenants can pay")
  else
    match s.listings.find? (fun e => e.1 == body.listing_id) with
    | none => .error (.notFound "Listing not found")
    | some e =>
      let amount := e.2.price
      let platform_fee := round2 (amount * (5 / 100))
      let owner_amount := round2 (amount - platform_fee)
      if !(decide (0 ≤ amount) && validMethods.contains body.method) then
        .error (.internal "Payment validation")
      else
        let pdoc : PaymentDoc := {
          listing_id := e.1, tenant_id := actor.1, owner_id := e.2.owner_id,
          amount := amount, method := body.method, platform_fee := platform_fee,
          owner_amount := owner_amount, status := "successful", receipt_id := none }
        let payment_id := s.nextId
        let s1 : AppState :=
          { s with payments := s.payments ++ [(payment_id, pdoc)], nextId := payment_id + 1 }
        let rdoc : ReceiptDoc := {
          payment_id := payment_id, total := amount, owner_amount := owner_amount,
          platform_fee := platform_fee, payee_phone := some platformPhone,
          reference := "TAK-" ++ toString payment_id }
        let receipt_id := s1.nextId
        let s2 : AppState :=
          { s1 with receipts := s1.receipts ++ [(receipt_id, rdoc)], nextId := receipt_id + 1 }
        let payments3 := updateFirst s2.payments payment_id
          (fun p => { p with receipt_id := some receipt_id })
        .ok ({ payment_id := payment_id, receipt_id := receipt_id,
               owner_amount := owner_amount, platform_fee := platform_fee },
             { s2 with payments := payments3 })

/-- list_users (src/main.py:338-345): admin only, capped at 200, no write. -/
def list_users (actor : Nat × UserDoc) (s : AppState) :
    Except HErr (List (Nat × UserDoc) × AppState) :=
  if !(actor.2.role == "admin") then
    .error (.forbidden "Admin only")
  else
    .ok (s.users.take 200, s)

/-- approve_user (src/main.py:347-352): admin only, sets is_approved. -/
def approve_user (actor : Nat × UserDoc) (user_id : Nat) (approve : Bool)
    (now : Nat) (s : AppState) : Except HErr (Bool × AppState) :=
  if !(actor.2.role == "admin") then
    .error (.forbidden "Admin only")
  else
    let users := updateFirst s.users user_id
      (fun u => { u with is_approved := approve, updated_at := some now })
    .ok (true, { s with users := users })

/-- verify_id (src/main.py:354-359): admin only, sets id_verified. -/
def verify_id (actor : Nat × UserDoc) (user_id : Nat) (verified : Bool)
    (now : Nat) (s : AppState) : Except HErr (Bool × AppState) :=
  if !(actor.2.role == "admin") then
    .error (.forbidden "Admin only")
  else
    let users := updateFirst s.users user_id
      (fun u => { u with id_verified := verified, updated_at := some now })
    .ok (true, { s with users := users })

/-- The store after a handler call: the new state on success, unchanged when
the handler raised (every error path raises before any write). -/
def finalState {α : Type} (r : Except HErr (α × AppState)) (s : AppState) :
    AppState :=
  match r with
  | .ok p => p.2
  | .error _ => s

/-- The status string written by the decision endpoint. -/
def decidedStatus (approve : Bool) : String :=
  if approve then "approved" else "rejected"

/-- The store after one call of the decision endpoint (unchanged if it
raised). -/
def afterDecision (actor : Nat × UserDoc) (aid : Nat) (approve : Bool)
    (now : Nat) (s : AppState) : AppState :=
  finalState (approve_application actor aid approve now s) s

/-- The status of a stored application, when present. -/
def statusOf (s : AppState) (aid : Nat) : Option String :=
  (findDoc s.applications aid).map (fun a => a.status)

/-! Concrete fixtures used to exercise the handlers on closed inputs. -/

/-- A concrete stand-in for the bcrypt context. -/
def crypto0 : Crypto :=
  { hash := fun p => "h:" ++ p, verify := fun p h => h == "h:" ++ p }

/-- A stored tenant (phone only, no email). -/
def tenant0 : UserDoc :=
  { full_name := "Tariro", role := "tenant", phone := some "0770000000",
    national_id := "63-111111A11", password_hash := "h:pw" }

/-- A stored landlord (email only, no phone). -/
def landlord0 : UserDoc :=
  { full_name := "Lennon", role := "landlord", email := some "len@example.com",
    national_id := "63-222222B22", password_hash := "h:pw2" }

/-- A stored admin. -/
def admin0 : UserDoc :=
  { full_name := "Amai", role := "admin", email := some "adm@example.com",
    national_id := "63-333333C33", password_hash := "h:pw3" }

/-- A concrete location. -/
def loc0 : LocationDoc := { lat := -17, lng := 31 }

/-- A stored listing owned by user 1 (the landlord), priced 150. -/
def listing0 : ListingDoc :=
  { owner_id := 1, title := "Garden Room", price := 150, location := loc0 }

/-- A stored pending application by user 0 for listing 10. -/
def app0 : ApplicationDoc :=
  { listing_id := 10, tenant_id := 0, national_id := "63-111111A11" }

/-- A concrete store: three users, one listing, one pending application. -/
def state0 : AppState :=
  { users := [(0, tenant0), (1, landlord0), (2, admin0)],
    listings := [(10, listing0)],
    applications := [(20, app0)],
    nextId := 30 }

/-- A concrete listing-creation body. -/
def listBody0 : ListingCreate :=
  { title := "Annex", price := 100, pricing_type := "monthly",
    property_type := "room", location := loc0 }

/-- The store expected after the landlord creates `listBody0` on `state0`. -/
def listState0 : AppState :=
  { state0 with
      listings := state0.listings
        ++ [(30, { owner_id := 1, title := "Annex", price := 100,
                   location := loc0 })],
      nextId := 31 }

/-! Association-list lemmas for `find_one` / `update_one`. -/

theorem findDoc_updateFirst {α : Type} (xs : List (Nat × α)) (id : Nat)
    (f : α → α) (a : α) (h : findDoc xs id = some a) :
    findDoc (updateFirst xs id f) id = some (f a) := by
  induction xs with
  | nil => simp [findDoc] at h
  | cons e rest ih =>
    rcases e with ⟨k, b⟩
    cases hk : (k == id) with
    | true =>
      simp [findDoc, List.find?_cons, hk] at h
      simp [findDoc, updateFirst, List.find?_cons, hk, h]
    | false =>
      simp only [findDoc, List.find?_cons, hk, cond_false] at h
      simp only [updateFirst, hk, Bool.false_eq_true, if_false, findDoc,
        List.find?_cons, cond_false]
      exact ih h

theorem findDoc_append_fresh {α : Type} (xs : List (Nat × α)) (id : Nat)
    (a : α) (h : ∀ e ∈ xs, e.1 ≠ id) :
    findDoc (xs ++ [(id, a)]) id = some a := by
  induction xs with
  | nil => simp [findDoc, List.find?_cons]
  | cons e rest ih =>
    have he : (e.1 == id) = false := by
      have := h e (List.mem_cons_self e rest)
      simpa using this
    simp only [List.cons_append, findDoc, List.find?_cons, he, cond_false]
    exact ih (fun x hx => h x (List.mem_cons_of_mem e hx))

/-! Success-path characterizations of the mutating handlers. -/

theorem register_ok (c : Crypto) (secret : String) (now : Nat)
    (body : RegisterRequest) (s : AppState)
    (hcontact : (!(pyTruthy body.email) && !(pyTruthy body.phone)) = false)
    (hdup : s.users.any (fun e => registerMatches body e.2) = false)
    (hrole : validRoles.contains body.role = true) :
    register c secret now body s = .ok (create_token secret now s.nextId,
      { s with
          users := s.users ++ [(s.nextId,
            { full_name := body.full_name, role := body.role,
              email := body.email, phone := body.phone,
              national_id := body.national_id,
              password_hash := c.hash body.password })],
          nextId := s.nextId + 1 }) := by
  simp only [register, hcontact, hdup, hrole, Bool.not_true, Bool.false_eq_true,
    if_false]

theorem create_listing_ok (actor : Nat × UserDoc) (body : ListingCreate)
    (s : AppState)
    (hrole : (["landlord", "lodge_owner", "admin"].contains actor.2.role) = true)
    (hval : (decide (0 ≤ body.price)
        && validPricingTypes.contains body.pricing_type
        && validPropertyTypes.contains body.property_type) = true) :
    create_listing actor body s = .ok (s.nextId,
      { s with
          listings := s.listings ++ [(s.nextId,
            { owner_id := actor.1, title := body.title,
              description := body.description, price := body.price,
              pricing_type := body.pricing_type,
              property_type := body.property_type,
              facilities := body.facilities, media_urls := body.media_urls,
              location := body.location,
              is_available := body.is_available })],
          nextId := s.nextId + 1 }) := by
  simp only [create_listing, hrole, hval, Bool.not_true, Bool.false_eq_true,
    if_false]

theorem approve_application_ok (actor : Nat × UserDoc) (aid : Nat) (ap : Bool)
    (now : Nat) (s : AppState) (a : ApplicationDoc) (l : ListingDoc)
    (ha : findDoc s.applications aid = some a)
    (hl : findDoc s.listings a.listing_id = some l)
    (hauth : l.owner_id = actor.1 ∨ actor.2.role = "admin") :
    approve_application actor aid ap now s = .ok (true,
      { s with
          applications := updateFirst s.applications aid
            (fun d => { d with
              status := (if ap then "approved" else "rejected"),
              updated_at := some now }) }) := by
  have hc : (!(l.owner_id == actor.1) && !(actor.2.role == "admin")) = false := by
    rcases hauth with h | h <;> simp [h]
  simp only [approve_application, ha, hl, hc, Bool.false_eq_true, if_false]

theorem init_payment_ok (platformPhone : String) (actor : Nat × UserDoc)
    (body : PaymentInit) (s : AppState) (lid : Nat) (l : ListingDoc)
    (hrole : actor.2.role = "tenant" ∨ actor.2.role = "admin")
    (hfind : s.listings.find? (fun e => e.1 == body.listing_id) = some (lid, l))
    (hprice : 0 ≤ l.price)
    (hmethod : body.method = "ecocash" ∨ body.method = "paynow") :
    init_payment platformPhone actor body s = .ok (
      { payment_id := s.nextId, receipt_id := s.nextId + 1,
        owner_amount := round2 (l.price - round2 (l.price * (5 / 100))),
        platform_fee := round2 (l.price * (5 / 100)) },
      { s with
          payments := updateFirst
            (s.payments ++ [(s.nextId,
              { listing_id := lid, tenant_id := actor.1, owner_id := l.owner_id,
                amount := l.price, method := body.method,
                platform_fee := round2 (l.price * (5 / 100)),
                owner_amount := round2 (l.price - round2 (l.price * (5 / 100))),
                status := "successful", receipt_id := none })])
            s.nextId (fun p => { p with receipt_id := some (s.nextId + 1) }),
          receipts := s.receipts ++ [(s.nextId + 1,
            { payment_id := s.nextId, total := l.price,
              owner_amount := round2 (l.price - round2 (l.price * (5 / 100))),
              platform_fee := round2 (l.price * (5 / 100)),
              payee_phone := some platformPhone,
              reference := "TAK-" ++ toString s.nextId })],
          nextId := s.nextId + 1 + 1 }) := by
  have hc1 : (!(["tenant", "admin"].contains actor.2.role)) = false := by
    rcases hrole with h | h <;> simp [h]
  have hc2 : (!(decide (0 ≤ l.price) && validMethods.contains body.method)) = false := by
    rcases hmethod with h | h <;> simp [hprice, validMethods, h]
  simp only [init_payment, hfind, hc1, hc2, Bool.false_eq_true, if_false]

/-! Rounding lemmas for the 95/5 split. -/

theorem round2_sub_hundredths (x : ℚ) (k : ℤ) :
    round2 (x - (k : ℚ) / 100) = round2 x - (k : ℚ) / 100 := by
  unfold round2
  have h : (100 : ℚ) * (x - (k : ℚ) / 100) = 100 * x - (k : ℚ) := by ring
  rw [h, round_sub_int]
  push_cast
  ring

theorem round2_split (P : ℚ) :
    round2 (P * (5 / 100)) + round2 (P - round2 (P * (5 / 100))) = round2 P := by
  have hfee : round2 (P * (5 / 100))
      = ((round (100 * (P * (5 / 100))) : ℤ) : ℚ) / 100 := rfl
  rw [hfee, round2_sub_hundredths]
  ring

theorem round2_of_hundredths (n : ℤ) : round2 ((n : ℚ) / 100) = (n : ℚ) / 100 := by
  unfold round2
  have h : (100 : ℚ) * ((n : ℚ) / 100) = (n : ℚ) := by
    ring
  rw [h, round_intCast]

/-- C1: every payment stored by init_payment on a listing priced P satisfies
platform_fee = round(P * 0.05, 2), owner_amount = round(P - platform_fee, 2),
and platform_fee + owner_amount equals P rounded to 2 decimals — in
particular it equals P itself whenever P has at most two decimal places. -/
theorem C1_payment_split (platformPhone : String) (actor : Nat × UserDoc)
    (body : PaymentInit) (s : AppState) (lid : Nat) (l : ListingDoc)
    (hrole : actor.2.role = "tenant" ∨ actor.2.role = "admin")
    (hfind : s.listings.find? (fun e => e.1 == body.listing_id) = some (lid, l))
    (hprice : 0 ≤ l.price)
    (hmethod : body.method = "ecocash" ∨ body.method = "paynow")
    (hfresh : ∀ e ∈ s.payments, e.1 ≠ s.nextId) :
    ∃ out s' p, init_payment platformPhone actor body s = .ok (out, s')
      ∧ findDoc s'.payments out.payment_id = some p
      ∧ p.amount = l.price
      ∧ p.platform_fee = round2 (l.price * (5 / 100))
      ∧ p.owner_amount = round2 (l.price - p.platform_fee)
      ∧ p.platform_fee + p.owner_amount = round2 l.price
      ∧ ∀ n : ℤ, l.price = (n : ℚ) / 100 →
          p.platform_fee + p.owner_amount = l.price := by
  refine ⟨_, _, _,
    init_payment_ok platformPhone actor body s lid l hrole hfind hprice hmethod,
    findDoc_updateFirst _ _ _ _ (findDoc_append_fresh _ _ _ hfresh),
    rfl, rfl, rfl, round2_split l.price, ?_⟩
  intro n hn
  show round2 (l.price * (5 / 100))
      + round2 (l.price - round2 (l.price * (5 / 100))) = l.price
  rw [round2_split l.price, hn, round2_of_hundredths]

/-- C1 witness: the tenant pays for listing 10 (price 150); the stored payment
splits into fee 7.50 and owner amount 142.50, summing back to 150. -/
theorem C1_payment_split_witness :
    ∃ out s' p, init_payment "ph" (0, tenant0)
        { listing_id := 10, method := "ecocash" } state0 = .ok (out, s')
      ∧ findDoc s'.payments out.payment_id = some p
      ∧ p.amount = listing0.price
      ∧ p.platform_fee = round2 (listing0.price * (5 / 100))
      ∧ p.owner_amount = round2 (listing0.price - p.platform_fee)
      ∧ p.platform_fee + p.owner_amount = round2 listing0.price
      ∧ ∀ n : ℤ, listing0.price = (n : ℚ) / 100 →
          p.platform_fee + p.owner_amount = listing0.price :=
  C1_payment_split "ph" (0, tenant0) { listing_id := 10, method := "ecocash" }
    state0 10 listing0 (Or.inl rfl) rfl (by norm_num [listing0]) (Or.inl rfl)
    (by intro e he; simp [state0] at he)

/-- C2: the spec expects registration with a unique national_id and at least
one of email/phone to succeed, but when exactly one of email/phone is given
the other branch of the duplicate `$or` query degenerates to the empty filter,
which matches every stored document: here a phone-only registration sharing no
field with any stored user is rejected with 400 "User already exists". -/
theorem C2_register_empty_filter_bug :
    register crypto0 "sec" 0
      { full_name := "B", role := "tenant", phone := some "0779999999",
        national_id := "63-999999Z99", password := "pw" } state0
      = .error (.badRequest "User already exists") := by
  rfl

/-- C3 counterexample: a landlord creating an application for a nonexistent
listing receives 403 (role check first), not the claimed 404. -/
theorem C3_counterexample :
    apply (1, landlord0) { listing_id := 999, national_id := "none" } state0
      = .error (.forbidden "Only tenants can apply") := by
  rfl

/-- C3 amended: availability update and application decision check existence
first and return 404 for every role; application creation and payment
initiation check the actor's role first — a wrong-role actor receives 403 even
when the listing is absent — and return 404 on an absent listing only once the
role check passes. -/
theorem C3_not_found_order (actor : Nat × UserDoc) (s : AppState) :
    (∀ lid b now, findDoc s.listings lid = none →
        update_availability actor lid b now s = .error (.notFound "Listing not found"))
  ∧ (∀ aid ap now, findDoc s.applications aid = none →
        approve_application actor aid ap now s
          = .error (.notFound "Application not found"))
  ∧ (∀ body : ApplicationCreate,
        (actor.2.role = "tenant" ∨ actor.2.role = "admin") →
        findDoc s.listings body.listing_id = none →
        apply actor body s = .error (.notFound "Listing not found"))
  ∧ (∀ body : ApplicationCreate,
        actor.2.role ≠ "tenant" → actor.2.role ≠ "admin" →
        apply actor body s = .error (.forbidden "Only tenants can apply"))
  ∧ (∀ pp (body : PaymentInit),
        (actor.2.role = "tenant" ∨ actor.2.role = "admin") →
        findDoc s.listings body.listing_id = none →
        init_payment pp actor body s = .error (.notFound "Listing not found"))
  ∧ (∀ pp (body : PaymentInit),
        actor.2.role ≠ "tenant" → actor.2.role ≠ "admin" →
        init_payment pp actor body s = .error (.forbidden "Only tenants can pay")) := by
  refine ⟨?_, ?_, ?_, ?_, ?_, ?_⟩
  · intro lid b now h
    simp only [update_availability, h]
  · intro aid ap now h
    simp only [approve_application, h]
  · intro body hrole h
    have hc : (!(["tenant", "admin"].contains actor.2.role)) = false := by
      rcases hrole with h' | h' <;> simp [h']
    simp only [apply, hc, Bool.false_eq_true, if_false, h]
  · intro body h1 h2
    have hc : (!(["tenant", "admin"].contains actor.2.role)) = true := by
      simp [h1, h2]
    simp only [apply, hc, if_true]
  · intro pp body hrole h
    have hc : (!(["tenant", "admin"].contains actor.2.role)) = false := by
      rcases hrole with h' | h' <;> simp [h']
    have h' : s.listings.find? (fun e => e.1 == body.listing_id) = none := by
      simpa [findDoc] using h
    simp only [init_payment, hc, Bool.false_eq_true, if_false, h']
  · intro pp body h1 h2
    have hc : (!(["tenant", "admin"].contains actor.2.role)) = true := by
      simp [h1, h2]
    simp only [init_payment, hc, if_true]

/-- C3 witness: on the concrete store, a tenant updating availability of a
nonexistent listing gets 404, and a tenant paying a nonexistent listing also
gets 404 once the role check passed. -/
theorem C3_not_found_order_witness :
    update_availability (0, tenant0) 999 true 0 state0
        = .error (.notFound "Listing not found")
    ∧ init_payment "ph" (0, tenant0) { listing_id := 999, method := "ecocash" }
        state0 = .error (.notFound "Listing not found") :=
  ⟨(C3_not_found_order (0, tenant0) state0).1 999 true 0 rfl,
   (C3_not_found_order (0, tenant0) state0).2.2.2.2.1 "ph"
     { listing_id := 999, method := "ecocash" } (Or.inl rfl) rfl⟩

/-- C4: deciding an existing application whose listing exists: an actor who is
neither the listing owner nor an admin gets 403 and the stored application is
untouched; the owner or an admin succeeds and the stored status becomes
approved/rejected according to the flag. -/
theorem C4_decision_authorization (actor : Nat × UserDoc) (aid : Nat)
    (ap : Bool) (now : Nat) (s : AppState) (a : ApplicationDoc) (l : ListingDoc)
    (ha : findDoc s.applications aid = some a)
    (hl : findDoc s.listings a.listing_id = some l) :
    (actor.1 ≠ l.owner_id → actor.2.role ≠ "admin" →
      approve_application actor aid ap now s = .error (.forbidden "Not allowed")
      ∧ findDoc (finalState (approve_application actor aid ap now s) s).applications aid
          = some a)
  ∧ ((l.owner_id = actor.1 ∨ actor.2.role = "admin") →
      ∃ s', approve_application actor aid ap now s = .ok (true, s')
        ∧ findDoc s'.applications aid = some { a with
            status := (if ap then "approved" else "rejected"),
            updated_at := some now }) := by
  constructor
  · intro h1 h2
    have hc : (!(l.owner_id == actor.1) && !(actor.2.role == "admin")) = true := by
      simp [Ne.symm h1, h2]
    have heq : approve_application actor aid ap now s
        = .error (.forbidden "Not allowed") := by
      simp only [approve_application, ha, hl, hc, if_true]
    refine ⟨heq, ?_⟩
    rw [heq]
    exact ha
  · intro hauth
    exact ⟨_, approve_application_ok actor aid ap now s a l ha hl hauth,
      findDoc_updateFirst _ _ _ _ ha⟩

/-- C4 witness: on the concrete store the listing owner approves the pending
application and its stored status becomes "approved". -/
theorem C4_decision_authorization_witness :
    ∃ s', approve_application (1, landlord0) 20 true 5 state0 = .ok (true, s')
      ∧ findDoc s'.applications 20 = some { app0 with
          status := "approved", updated_at := some 5 } :=
  (C4_decision_authorization (1, landlord0) 20 true 5 state0 app0 listing0
    rfl rfl).2 (Or.inl rfl)

/-- C5: each admin endpoint answers 403 to a non-admin caller and the stored
users are unchanged. -/
theorem C5_admin_forbidden (actor : Nat × UserDoc) (s : AppState) (uid : Nat)
    (b : Bool) (now : Nat) (h : actor.2.role ≠ "admin") :
    list_users actor s = .error (.forbidden "Admin only")
  ∧ approve_user actor uid b now s = .error (.forbidden "Admin only")
  ∧ verify_id actor uid b now s = .error (.forbidden "Admin only")
  ∧ (finalState (list_users actor s) s).users = s.users
  ∧ (finalState (approve_user actor uid b now s) s).users = s.users
  ∧ (finalState (verify_id actor uid b now s) s).users = s.users := by
  have hc : (!(actor.2.role == "admin")) = true := by
    simp [h]
  have h1 : list_users actor s = .error (.forbidden "Admin only") := by
    simp only [list_users, hc, if_true]
  have h2 : approve_user actor uid b now s = .error (.forbidden "Admin only") := by
    simp only [approve_user, hc, if_true]
  have h3 : verify_id actor uid b now s = .error (.forbidden "Admin only") := by
    simp only [verify_id, hc, if_true]
  refine ⟨h1, h2, h3, ?_, ?_, ?_⟩
  · rw [h1]
    rfl
  · rw [h2]
    rfl
  · rw [h3]
    rfl

/-- C5 witness: the tenant calling the three admin endpoints on the concrete
store gets 403 each time and the user collection is untouched. -/
theorem C5_admin_forbidden_witness :
    list_users (0, tenant0) state0 = .error (.forbidden "Admin only")
  ∧ approve_user (0, tenant0) 1 true 7 state0 = .error (.forbidden "Admin only")
  ∧ verify_id (0, tenant0) 1 true 7 state0 = .error (.forbidden "Admin only")
  ∧ (finalState (list_users (0, tenant0) state0) state0).users = state0.users
  ∧ (finalState (approve_user (0, tenant0) 1 true 7 state0) state0).users
      = state0.users
  ∧ (finalState (verify_id (0, tenant0) 1 true 7 state0) state0).users
      = state0.users :=
  C5_admin_forbidden (0, tenant0) state0 1 true 7 (by decide)

/-- C6: login answers 401 with the identical message "Invalid credentials"
whether the identifier matches no stored user or the matched user's password
fails verification; on success the token's subject is the matched user's
id. -/
theorem C6_login_uniform_error (c : Crypto) (secret : String) (now : Nat)
    (identifier password : String) (s : AppState) :
    (s.users.find? (fun e => loginMatches identifier e.2) = none →
      login c secret now identifier password s
        = .error (.unauthorized "Invalid credentials"))
  ∧ (∀ uid u, s.users.find? (fun e => loginMatches identifier e.2) = some (uid, u) →
      c.verify password u.password_hash = false →
      login c secret now identifier password s
        = .error (.unauthorized "Invalid credentials"))
  ∧ (∀ uid u, s.users.find? (fun e => loginMatches identifier e.2) = some (uid, u) →
      c.verify password u.password_hash = true →
      login c secret now identifier password s = .ok (create_token secret now uid)
      ∧ (create_token secret now uid).payload.sub = uid) := by
  refine ⟨?_, ?_, ?_⟩
  · intro h
    simp only [login, h]
  · intro uid u h hv
    simp only [login, h, hv, Bool.false_eq_true, if_false]
  · intro uid u h hv
    exact ⟨by simp only [login, h, hv, if_true], rfl⟩

/-- C6 witness: the tenant logs in by phone with the right password and gets a
token whose subject is its id 0; with a wrong password the answer is the
uniform 401. -/
theorem C6_login_uniform_error_witness :
    (login crypto0 "sec" 0 "0770000000" "pw" state0
        = .ok (create_token "sec" 0 0)
      ∧ (create_token "sec" 0 0).payload.sub = 0)
  ∧ login crypto0 "sec" 0 "0770000000" "bad" state0
      = .error (.unauthorized "Invalid credentials") :=
  ⟨(C6_login_uniform_error crypto0 "sec" 0 "0770000000" "pw" state0).2.2
      0 tenant0 rfl rfl,
   (C6_login_uniform_error crypto0 "sec" 0 "0770000000" "bad" state0).2.1
      0 tenant0 rfl rfl⟩

/-- C7: every listing returned by search_listings respects the inclusive
price bounds whenever min_price and/or max_price are supplied. -/
theorem C7_search_price_bounds (p : SearchParams) (s : AppState)
    (e : Nat × ListingDoc) (he : e ∈ search_listings p s) :
    (∀ m, p.min_price = some m → m ≤ e.2.price)
  ∧ (∀ m, p.max_price = some m → e.2.price ≤ m) := by
  have hf : e ∈ s.listings.filter (fun x => matchesSearch p x.2) :=
    List.take_subset _ _ he
  have hm : matchesSearch p e.2 = true := (List.mem_filter.mp hf).2
  unfold matchesSearch at hm
  constructor
  · intro m hmin
    simp only [hmin, Bool.and_eq_true, decide_eq_true_eq] at hm
    exact hm.1.1.2
  · intro m hmax
    simp only [hmax, Bool.and_eq_true, decide_eq_true_eq] at hm
    exact hm.1.2

/-- C7 witness: searching the concrete store with bounds 100..200 returns the
listing priced 150, within both bounds. -/
theorem C7_search_price_bounds_witness :
    (∀ m, ({ min_price := some 100, max_price := some 200 } :
        SearchParams).min_price = some m → m ≤ (10, listing0).2.price)
  ∧ (∀ m, ({ min_price := some 100, max_price := some 200 } :
        SearchParams).max_price = some m → (10, listing0).2.price ≤ m) :=
  C7_search_price_bounds
    { min_price := some 100, max_price := some 200 } state0 (10, listing0)
    (by decide)

/-- One authorized decision on an existing application stores the decided
status, leaves the listings untouched, and keeps the application present. -/
theorem afterDecision_status (actor : Nat × UserDoc) (aid : Nat) (v : Bool)
    (now : Nat) (s : AppState) (a : ApplicationDoc) (l : ListingDoc)
    (ha : findDoc s.applications aid = some a)
    (hl : findDoc s.listings a.listing_id = some l)
    (hauth : l.owner_id = actor.1 ∨ actor.2.role = "admin") :
    statusOf (afterDecision actor aid v now s) aid = some (decidedStatus v)
  ∧ findDoc (afterDecision actor aid v now s).applications aid
      = some { a with status := decidedStatus v, updated_at := some now }
  ∧ (afterDecision actor aid v now s).listings = s.listings := by
  have h1 := approve_application_ok actor aid v now s a l ha hl hauth
  have hseq : afterDecision actor aid v now s
      = { s with
            applications := updateFirst s.applications aid
              (fun d => { d with
                status := (if v then "approved" else "rejected"),
                updated_at := some now }) } := by
    unfold afterDecision
    rw [h1]
    rfl
  have hfind : findDoc (afterDecision actor aid v now s).applications aid
      = some { a with status := decidedStatus v, updated_at := some now } := by
    rw [hseq]
    exact findDoc_updateFirst _ _ _ _ ha
  refine ⟨?_, hfind, ?_⟩
  · unfold statusOf
    rw [hfind]
    rfl
  · rw [hseq]

/-- C8: the decision endpoint overwrites the stored status: after any two
authorized decisions the status is the one of the last call regardless of the
previously held status, and repeating the same decision leaves the same
status as one call. -/
theorem C8_decision_last_writer (actor : Nat × UserDoc) (aid : Nat)
    (s : AppState) (a : ApplicationDoc) (l : ListingDoc)
    (ha : findDoc s.applications aid = some a)
    (hl : findDoc s.listings a.listing_id = some l)
    (hauth : l.owner_id = actor.1 ∨ actor.2.role = "admin")
    (v1 v2 : Bool) (n1 n2 : Nat) :
    statusOf (afterDecision actor aid v1 n1 s) aid = some (decidedStatus v1)
  ∧ statusOf (afterDecision actor aid v2 n2 (afterDecision actor aid v1 n1 s)) aid
      = some (decidedStatus v2)
  ∧ (v1 = v2 →
      statusOf (afterDecision actor aid v2 n2 (afterDecision actor aid v1 n1 s)) aid
        = statusOf (afterDecision actor aid v1 n1 s) aid) := by
  obtain ⟨hst1, hfind1, hlist1⟩ :=
    afterDecision_status actor aid v1 n1 s a l ha hl hauth
  have hl1 : findDoc (afterDecision actor aid v1 n1 s).listings
      ({ a with
          status := decidedStatus v1,
          updated_at := some n1 } : ApplicationDoc).listing_id = some l := by
    rw [hlist1]
    exact hl
  obtain ⟨hst2, _, _⟩ := afterDecision_status actor aid v2 n2
    (afterDecision actor aid v1 n1 s) _ l hfind1 hl1 hauth
  refine ⟨hst1, hst2, ?_⟩
  intro hv
  rw [hst1, hst2, hv]

/-- C8 witness: the owner approves the pending application twice; both stores
hold status "approved" and the second call changed nothing. -/
theorem C8_decision_last_writer_witness :
    statusOf (afterDecision (1, landlord0) 20 true 1 state0) 20
        = some (decidedStatus true)
  ∧ statusOf (afterDecision (1, landlord0) 20 true 2
        (afterDecision (1, landlord0) 20 true 1 state0)) 20
        = some (decidedStatus true)
  ∧ (true = true →
      statusOf (afterDecision (1, landlord0) 20 true 2
          (afterDecision (1, landlord0) 20 true 1 state0)) 20
        = statusOf (afterDecision (1, landlord0) 20 true 1 state0) 20) :=
  C8_decision_last_writer (1, landlord0) 20 state0 app0 listing0 rfl rfl
    (Or.inl rfl) true true 1 2

/-- C9: create_token embeds the given subject, carries an expiry exactly 24
hours (86400 seconds) after issuance, and is signed with the shared secret;
register and login issue exactly such a token for the created resp. matched
user's id. -/
theorem C9_token_contents (secret : String) (now : Nat) (uid : Nat) :
    (create_token secret now uid).payload.sub = uid
  ∧ (create_token secret now uid).payload.exp = now + 24 * 60 * 60
  ∧ (create_token secret now uid).sig
      = mkSig secret (create_token secret now uid).payload
  ∧ (∀ c body s tok s', register c secret now body s = .ok (tok, s') →
      tok = create_token secret now s.nextId)
  ∧ (∀ c identifier password (s : AppState) tok,
      login c secret now identifier password s = .ok tok →
      ∃ e, s.users.find? (fun x => loginMatches identifier x.2) = some e
        ∧ tok = create_token secret now e.1) := by
  refine ⟨rfl, rfl, rfl, ?_, ?_⟩
  · intro c body s tok s' h
    unfold register at h
    split at h
    · exact Except.noConfusion h
    · split at h
      · exact Except.noConfusion h
      · split at h
        · exact Except.noConfusion h
        · simp only [Except.ok.injEq, Prod.mk.injEq] at h
          exact h.1.symm
  · intro c identifier password s tok h
    unfold login at h
    split at h
    · exact Except.noConfusion h
    · rename_i e heq
      split at h
      · simp only [Except.ok.injEq] at h
        exact ⟨e, heq, h.symm⟩
      · exact Except.noConfusion h

/-- C9 witness: a concrete token for user 5 issued at time 3 has subject 5,
expiry 3 + 86400, and the modelled signature. -/
theorem C9_token_contents_witness :
    (create_token "sec" 3 5).payload.sub = 5
  ∧ (create_token "sec" 3 5).payload.exp = 3 + 24 * 60 * 60
  ∧ (create_token "sec" 3 5).sig = mkSig "sec" (create_token "sec" 3 5).payload :=
  ⟨(C9_token_contents "sec" 3 5).1, (C9_token_contents "sec" 3 5).2.1,
   (C9_token_contents "sec" 3 5).2.2.1⟩

/-- C10: a listing stored by a successful create_listing call carries
owner_id equal to the authenticated caller's id, for every request body:
ListingCreate has no owner_id field, so the body cannot designate another
owner. -/
theorem C10_listing_owner_is_caller (actor : Nat × UserDoc)
    (body : ListingCreate) (s : AppState) (id : Nat) (s' : AppState)
    (hfresh : ∀ e ∈ s.listings, e.1 ≠ s.nextId)
    (h : create_listing actor body s = .ok (id, s')) :
    ∃ l, findDoc s'.listings id = some l ∧ l.owner_id = actor.1 := by
  unfold create_listing at h
  split at h
  · exact Except.noConfusion h
  · split at h
    · exact Except.noConfusion h
    · simp only [Except.ok.injEq, Prod.mk.injEq] at h
      obtain ⟨hid, hs⟩ := h
      subst hid
      subst hs
      exact ⟨_, findDoc_append_fresh _ _ _ hfresh, rfl⟩

/-- C10 witness: the landlord (id 1) creates a listing on the concrete store;
the stored listing's owner_id is 1. -/
theorem C10_listing_owner_is_caller_witness :
    ∃ l, findDoc listState0.listings 30 = some l ∧ l.owner_id = 1 :=
  C10_listing_owner_is_caller (1, landlord0) listBody0 state0 30 listState0
    (by decide) rfl

end Takuezy
